import Mathlib

/-!
Shallow embedding of `src/python3/delete_all_documents.py`.

The script deletes every document of a Watson Discovery V2 collection:
it checks its command line and two environment variables, then runs a
`while keep_deleting` loop.  Each iteration retries the index query up
to `max_tries` times, then either stops (zero matches), sleeps 30 s
(all visible ids already dispatched), or fans the pending ids out to a
thread pool of `delete_task` calls and unions them into
`already_deleted`.

Remote interactions are modelled as oracles supplied per iteration:
`attempts i` is the outcome of the i-th query call of the round
(`none` = the call raised), and `outcomes d` is the outcome of the
delete request for document id `d`.
-/

namespace DeleteAllDocuments

/-- Document identifiers are opaque strings (`document_id` values). -/
abbrev DocId := String

/-- One record of the query response's `results` list; the query
projects on the `document_id` field (line 111). -/
structure QueryHit where
  document_id : DocId
  deriving DecidableEq, Repr

/-- The query response used by the script: `matching_results` and the
`results` list (lines 123-125). -/
structure QueryResult where
  matching_results : Nat
  results : List QueryHit
  deriving DecidableEq, Repr

/-- Line 125: `docids = [ r['document_id'] for r in results ]`. -/
def docidsOf (q : QueryResult) : List DocId :=
  q.results.map (·.document_id)

/-- Line 77: `batch_size=1000`. -/
def batch_size : Nat := 1000

/-- Line 80: `max_threads=16`. -/
def max_threads : Nat := 16

/-- Line 82: `max_tries = 5`. -/
def max_tries : Nat := 5

/-! ### Startup: argument and environment checks (lines 46-57) -/

/-- The two environment variables the script reads. -/
structure Env where
  wd_url : Option String
  wd_token : Option String
  deriving DecidableEq, Repr

/-- A `sys.exit` taken during startup: the printed diagnostic and the
process exit status.  `sys.exit()` with no argument exits with
status 0. -/
structure StartupExit where
  message : String
  exitCode : Nat
  deriving DecidableEq, Repr

/-- Configuration assembled when all startup checks pass. -/
structure Config where
  api_url : String
  token : String
  project_id : String
  collection_id : String
  deriving DecidableEq, Repr

/-- Lines 46-60: usage check on `sys.argv` (which includes the program
name), then `WD_URL`, then `WD_TOKEN`; each failure prints a message
and calls `sys.exit()` (exit status 0). -/
def startup (argv : List String) (env : Env) : Except StartupExit Config :=
  if argv.length < 3 then
    .error ⟨"Usage: delete_all_documents.py project_id collection_id", 0⟩
  else
    match env.wd_url with
    | none =>
        .error ⟨"WD_URL is not set. Set it to the Watson Discovery instance API URL.", 0⟩
    | some url =>
        match env.wd_token with
        | none =>
            .error ⟨"WD_TOKEN is not set. Set it to the Watson Discovery instance API TOKEN.", 0⟩
        | some tok =>
            .ok ⟨url, tok, argv.getD 1 "", argv.getD 2 ""⟩

/-! ### The query retry loop (lines 104-120) -/

/-- The retry loop of lines 104-117:
`for how_many_tries in range(max_tries): try: ... break except: ...`.
Returns the final value of `how_many_tries` together with the bound
`matched_documents` (if any call succeeded before the loop ended).
The loop breaks at the first successful call; if every call raises,
the loop runs to completion leaving `how_many_tries = max_tries - 1`. -/
def retryLoop (attempts : Nat → Option QueryResult) : Nat × Option QueryResult :=
  match (List.range max_tries).find? (fun i => (attempts i).isSome) with
  | some i => (i, attempts i)
  | none => (max_tries - 1, none)

/-- Lines 104-120 as a whole: run the retry loop, then
`if how_many_tries == max_tries - 1: print("Giving up."); sys.exit()`.
`none` means the process exited; `some q` means the round proceeds
with `matched_documents = q`.  Note the guard fires whenever the loop
variable ends at `max_tries - 1`, including a successful query on the
last attempt. -/
def pollRound (attempts : Nat → Option QueryResult) : Option QueryResult :=
  let r := retryLoop attempts
  if r.1 = max_tries - 1 then none else r.2

/-! ### The dispatch block (lines 88-96 and 141-149) -/

/-- Outcome of one `delete_task` call: `.ok` with the response on
success, `.error` with the raised exception otherwise (the SDK's
`get_result()` raises on failure). -/
abbrev DeleteOutcome := Except String String

/-- Whether a `delete_task` call raised (the SDK's `get_result()`
raises an `ApiException` on a failed request). -/
def isError : DeleteOutcome → Bool
  | .error _ => true
  | .ok _ => false

/-- Result of the `with ThreadPoolExecutor(...)` block (lines 141-147).
`attempts` is the multiset of delete requests submitted
(`executor.map` creates one task per element of the set `diff`, in the
set's unspecified iteration order, so a multiset); `newAlready` is the
reassigned `already_deleted` (line 145, executed before the results
are read); `raised` is the set of identifiers whose task raised — when
it is non-empty, the first such exception re-raises out of the
`for dr in delete_results` loop. -/
structure DispatchResult where
  attempts : Multiset DocId
  newAlready : Finset DocId
  raised : Finset DocId
  deriving DecidableEq

/-- Lines 141-147: submit `delete_task` for every element of `diff`,
union `diff` into `already_deleted`, then iterate the results; a
worker exception propagates out of the iteration. -/
def dispatchBlock (outcomes : DocId → DeleteOutcome) (already : Finset DocId)
    (diff : Finset DocId) : DispatchResult :=
  { attempts := diff.val
    newAlready := already ∪ diff
    raised := diff.filter (fun d => isError (outcomes d) = true) }

/-- Line 129: `diff=set(docids).difference(already_deleted)`. -/
def pendingBatch (docids : List DocId) (already : Finset DocId) : Finset DocId :=
  docids.toFinset \ already

/-! ### One iteration of the main loop (lines 102-153) -/

/-- What one pass of the `while keep_deleting` body does.  Every
constructor that continues or returns carries the value of
`already_deleted` after the pass. -/
inductive IterResult where
  /-- The message "Giving up." printed and `sys.exit()` called
  (lines 118-120). -/
  | exitGaveUp
  /-- A `delete_task` exception re-raised while iterating
  `delete_results` (line 146); the process dies with an unhandled
  exception.  `already_deleted` was already reassigned (line 145). -/
  | exitRaised (already : Finset DocId)
  /-- The message "No documents found in the collection." printed and
  `keep_deleting` set to `False` (lines 150-153). -/
  | finished (already : Finset DocId)
  /-- Empty diff: "Waiting for delete requests to reach the index..."
  printed and `time.sleep` of the given seconds (lines 132-137). -/
  | settleWait (sleepSecs : Nat) (already : Finset DocId)
  /-- Deletes dispatched and `already_deleted` updated
  (lines 138-149). -/
  | dispatched (already : Finset DocId)
  deriving DecidableEq

/-- The oracle inputs of one iteration: query-call outcomes and
delete-request outcomes. -/
structure RoundInput where
  attempts : Nat → Option QueryResult
  outcomes : DocId → DeleteOutcome

/-- One full pass of the main loop body (lines 102-153). -/
def loopIter (r : RoundInput) (already : Finset DocId) : IterResult :=
  match pollRound r.attempts with
  | none => .exitGaveUp
  | some q =>
      if 0 < q.matching_results then
        let diff := pendingBatch (docidsOf q) already
        if diff = ∅ then
          .settleWait 30 already
        else
          let d := dispatchBlock r.outcomes already diff
          if d.raised = ∅ then .dispatched d.newAlready
          else .exitRaised d.newAlready
      else
        .finished already

/-- The delete requests submitted during one pass: empty unless the
pass reaches the dispatch block, in which case every element of the
pending batch is submitted (the executor creates all tasks before any
result is read). -/
def iterRequests (r : RoundInput) (already : Finset DocId) : Finset DocId :=
  match pollRound r.attempts with
  | none => ∅
  | some q =>
      if 0 < q.matching_results then pendingBatch (docidsOf q) already else ∅

/-! ### The whole run -/

/-- How a (finite prefix of a) run ends. -/
inductive RunStatus where
  /-- The supplied rounds were exhausted with `keep_deleting` still
  `True`. -/
  | running
  /-- Flag `keep_deleting` became `False`: normal completion. -/
  | finishedOk
  /-- The "Giving up." path: `sys.exit()` after the retry guard fired. -/
  | gaveUpAborted
  /-- Unhandled `delete_task` exception killed the process. -/
  | deleteRaised
  deriving DecidableEq, Repr

/-- Observable trace of a run: the pending batches that were handed to
the dispatcher, in order; the final `already_deleted`; how it ended. -/
structure RunTrace where
  batches : List (Finset DocId)
  finalAlready : Finset DocId
  status : RunStatus
  deriving DecidableEq

/-- The `while keep_deleting` loop (lines 102-153), driven by one
`RoundInput` per iteration. -/
def runLoop : List RoundInput → Finset DocId → RunTrace
  | [], s => ⟨[], s, .running⟩
  | r :: rs, s =>
      match loopIter r s with
      | .exitGaveUp => ⟨[], s, .gaveUpAborted⟩
      | .exitRaised s' => ⟨[iterRequests r s], s', .deleteRaised⟩
      | .finished s' => ⟨[], s', .finishedOk⟩
      | .settleWait _ s' =>
          runLoop rs s'
      | .dispatched s' =>
          let t := runLoop rs s'
          ⟨iterRequests r s :: t.batches, t.finalAlready, t.status⟩

/-- The whole script: startup checks, then the main loop starting from
`already_deleted = set([])` (line 100).  A startup failure exits
before any remote call is made. -/
def script (argv : List String) (env : Env) (rounds : List RoundInput) :
    Except StartupExit RunTrace :=
  match startup argv env with
  | .error e => .error e
  | .ok _ => .ok (runLoop rounds ∅)

/-! ### Helper lemmas -/

lemma pollRound_of_allFail (attempts : Nat → Option QueryResult)
    (h : ∀ i < max_tries, attempts i = none) : pollRound attempts = none := by
  have hf : (List.range max_tries).find? (fun i => (attempts i).isSome) = none :=
    List.find?_eq_none.mpr (fun i hi => by rw [h i (List.mem_range.mp hi)]; simp)
  simp [pollRound, retryLoop, hf]

lemma loopIter_finished (r : RoundInput) (s : Finset DocId) (q : QueryResult)
    (hp : pollRound r.attempts = some q) (h0 : q.matching_results = 0) :
    loopIter r s = .finished s := by
  simp [loopIter, hp, h0]

lemma loopIter_settle (r : RoundInput) (s : Finset DocId) (q : QueryResult)
    (hp : pollRound r.attempts = some q) (hpos : 0 < q.matching_results)
    (hempty : pendingBatch (docidsOf q) s = ∅) :
    loopIter r s = .settleWait 30 s := by
  simp [loopIter, hp, hpos, hempty]

lemma loopIter_raised (r : RoundInput) (s : Finset DocId) (q : QueryResult)
    (hp : pollRound r.attempts = some q) (hpos : 0 < q.matching_results)
    (hne : pendingBatch (docidsOf q) s ≠ ∅)
    (hr : (dispatchBlock r.outcomes s (pendingBatch (docidsOf q) s)).raised ≠ ∅) :
    loopIter r s = .exitRaised (s ∪ pendingBatch (docidsOf q) s) := by
  simp only [loopIter, hp]
  rw [if_pos hpos, if_neg hne, if_neg hr]
  rfl

lemma loopIter_dispatched (r : RoundInput) (s : Finset DocId) (q : QueryResult)
    (hp : pollRound r.attempts = some q) (hpos : 0 < q.matching_results)
    (hne : pendingBatch (docidsOf q) s ≠ ∅)
    (hr : (dispatchBlock r.outcomes s (pendingBatch (docidsOf q) s)).raised = ∅) :
    loopIter r s = .dispatched (s ∪ pendingBatch (docidsOf q) s) := by
  simp only [loopIter, hp]
  rw [if_pos hpos, if_neg hne, if_pos hr]
  rfl

lemma iterRequests_eq (r : RoundInput) (s : Finset DocId) (q : QueryResult)
    (hp : pollRound r.attempts = some q) (hpos : 0 < q.matching_results) :
    iterRequests r s = pendingBatch (docidsOf q) s := by
  simp [iterRequests, hp, hpos]

/-! ### Claim theorems: single iterations -/

/-- C1: the main loop exits the `while` and prints the no-documents
message exactly when the poll's `matching_results` is zero; when the
count is positive the loop never takes the `finished` branch, and in
particular when every visible identifier is already in
`already_deleted` the iteration is the 30-second settle wait, which
re-enters the loop. -/
theorem terminate_only_on_zero_matches (r : RoundInput) (s : Finset DocId) (q : QueryResult)
    (hp : pollRound r.attempts = some q) :
    ((∃ s', loopIter r s = .finished s') ↔ q.matching_results = 0)
    ∧ (0 < q.matching_results → (docidsOf q).toFinset ⊆ s →
        loopIter r s = .settleWait 30 s) := by
  constructor
  · constructor
    · rintro ⟨s', hs'⟩
      by_contra hne
      have hpos : 0 < q.matching_results := Nat.pos_of_ne_zero hne
      by_cases hd : pendingBatch (docidsOf q) s = ∅
      · rw [loopIter_settle r s q hp hpos hd] at hs'
        exact IterResult.noConfusion hs'
      · by_cases hr : (dispatchBlock r.outcomes s (pendingBatch (docidsOf q) s)).raised = ∅
        · rw [loopIter_dispatched r s q hp hpos hd hr] at hs'
          exact IterResult.noConfusion hs'
        · rw [loopIter_raised r s q hp hpos hd hr] at hs'
          exact IterResult.noConfusion hs'
    · intro h0
      exact ⟨s, loopIter_finished r s q hp h0⟩
  · intro hpos hsub
    exact loopIter_settle r s q hp hpos (Finset.sdiff_eq_empty_iff_subset.mpr hsub)

def rC1 : RoundInput := ⟨fun _ => some ⟨3, [⟨"a"⟩]⟩, fun _ => .ok "deleted"⟩

/-- Witness for C1: a poll reporting 3 matches whose only visible
identifier is already dispatched makes the iteration a settle wait. -/
theorem terminate_only_on_zero_matches_witness :
    loopIter rC1 {"a"} = .settleWait 30 {"a"} :=
  (terminate_only_on_zero_matches rC1 {"a"} ⟨3, [⟨"a"⟩]⟩ rfl).2 (by decide) (by decide)

/-- C3: when every one of the `max_tries` query calls of a round
raises, the iteration is the "Giving up." exit, and the run as a whole
dispatches nothing in that round or any later round — `sys.exit()`
ends the process with the state unchanged. -/
theorem retry_exhaustion_aborts (r : RoundInput) (rest : List RoundInput) (s : Finset DocId)
    (hfail : ∀ i < max_tries, r.attempts i = none) :
    loopIter r s = .exitGaveUp ∧ runLoop (r :: rest) s = ⟨[], s, .gaveUpAborted⟩ := by
  have hp : pollRound r.attempts = none := pollRound_of_allFail r.attempts hfail
  have hi : loopIter r s = .exitGaveUp := by simp [loopIter, hp]
  exact ⟨hi, by simp [runLoop, hi]⟩

def rAllFail : RoundInput := ⟨fun _ => none, fun _ => .ok "deleted"⟩

/-- Witness for C3 at a round whose every query call raises. -/
theorem retry_exhaustion_aborts_witness :
    loopIter rAllFail ∅ = .exitGaveUp ∧ runLoop [rAllFail] ∅ = ⟨[], ∅, .gaveUpAborted⟩ :=
  retry_exhaustion_aborts rAllFail [] ∅ (fun _ _ => rfl)

/-- C7: a successful poll with a positive count whose visible
identifiers are all already dispatched (empty diff) makes the
iteration sleep 30 seconds with `already_deleted` unchanged, sends no
delete requests, and the run simply continues with the next poll. -/
theorem settle_wait_on_empty_diff (r : RoundInput) (rest : List RoundInput) (s : Finset DocId)
    (q : QueryResult) (hp : pollRound r.attempts = some q)
    (hpos : 0 < q.matching_results) (hempty : pendingBatch (docidsOf q) s = ∅) :
    loopIter r s = .settleWait 30 s ∧ iterRequests r s = ∅
    ∧ runLoop (r :: rest) s = runLoop rest s := by
  have hi := loopIter_settle r s q hp hpos hempty
  refine ⟨hi, ?_, by simp [runLoop, hi]⟩
  rw [iterRequests_eq r s q hp hpos]
  exact hempty

def rC7 : RoundInput := ⟨fun _ => some ⟨2, [⟨"b"⟩]⟩, fun _ => .ok "deleted"⟩

/-- Witness for C7: 2 reported matches, the only visible identifier
already dispatched. -/
theorem settle_wait_on_empty_diff_witness :
    loopIter rC7 {"b"} = .settleWait 30 {"b"} ∧ iterRequests rC7 {"b"} = ∅
    ∧ runLoop [rC7] {"b"} = runLoop [] {"b"} :=
  settle_wait_on_empty_diff rC7 [] {"b"} ⟨2, [⟨"b"⟩]⟩ rfl (by decide) (by decide)

/-- C10: the stop decision reads only `matching_results`: a zero count
finishes the run without touching the `results` list (the list is
arbitrary here) and sends no delete request, while a positive count
with an empty `results` list takes the settle-wait branch rather than
failing. -/
theorem termination_reads_only_matching_results (r : RoundInput) (s : Finset DocId)
    (q : QueryResult) (hp : pollRound r.attempts = some q) :
    (q.matching_results = 0 → loopIter r s = .finished s ∧ iterRequests r s = ∅)
    ∧ (0 < q.matching_results → q.results = [] → loopIter r s = .settleWait 30 s) := by
  constructor
  · intro h0
    refine ⟨loopIter_finished r s q hp h0, ?_⟩
    simp [iterRequests, hp, h0]
  · intro hpos hnil
    apply loopIter_settle r s q hp hpos
    simp [pendingBatch, docidsOf, hnil]

def rC10a : RoundInput := ⟨fun _ => some ⟨0, [⟨"c"⟩]⟩, fun _ => .ok "deleted"⟩

def rC10b : RoundInput := ⟨fun _ => some ⟨7, []⟩, fun _ => .ok "deleted"⟩

/-- Witness for C10: a zero count with a non-empty results list still
finishes; a count of 7 with an empty results list settle-waits. -/
theorem termination_reads_only_matching_results_witness :
    (loopIter rC10a ∅ = .finished ∅ ∧ iterRequests rC10a ∅ = ∅)
    ∧ loopIter rC10b ∅ = .settleWait 30 ∅ :=
  ⟨(termination_reads_only_matching_results rC10a ∅ ⟨0, [⟨"c"⟩]⟩ rfl).1 rfl,
   (termination_reads_only_matching_results rC10b ∅ ⟨7, []⟩ rfl).2 (by decide) rfl⟩

/-! ### Run-level invariants -/

lemma runLoop_spec (rounds : List RoundInput) :
    ∀ s : Finset DocId,
      (runLoop rounds s).finalAlready = (runLoop rounds s).batches.foldl (· ∪ ·) s
      ∧ s ⊆ (runLoop rounds s).finalAlready
      ∧ (∀ b ∈ (runLoop rounds s).batches, Disjoint b s)
      ∧ (runLoop rounds s).batches.Pairwise (fun a b => Disjoint a b) := by
  induction rounds with
  | nil =>
      intro s
      exact ⟨rfl, Finset.Subset.refl s, by simp [runLoop], by simp [runLoop]⟩
  | cons r rs ih =>
      intro s
      rcases hp : pollRound r.attempts with _ | q
      · have hi : loopIter r s = .exitGaveUp := by simp [loopIter, hp]
        rw [show runLoop (r :: rs) s = ⟨[], s, .gaveUpAborted⟩ by simp [runLoop, hi]]
        exact ⟨rfl, Finset.Subset.refl s, by simp, by simp⟩
      · by_cases hpos : 0 < q.matching_results
        · by_cases hd : pendingBatch (docidsOf q) s = ∅
          · have hi := loopIter_settle r s q hp hpos hd
            rw [show runLoop (r :: rs) s = runLoop rs s by simp [runLoop, hi]]
            exact ih s
          · by_cases hr : (dispatchBlock r.outcomes s (pendingBatch (docidsOf q) s)).raised = ∅
            · have hi := loopIter_dispatched r s q hp hpos hd hr
              have hreq := iterRequests_eq r s q hp hpos
              rw [show runLoop (r :: rs) s =
                  ⟨pendingBatch (docidsOf q) s ::
                      (runLoop rs (s ∪ pendingBatch (docidsOf q) s)).batches,
                    (runLoop rs (s ∪ pendingBatch (docidsOf q) s)).finalAlready,
                    (runLoop rs (s ∪ pendingBatch (docidsOf q) s)).status⟩ by
                simp [runLoop, hi, hreq]]
              obtain ⟨h1, h2, h3, h4⟩ := ih (s ∪ pendingBatch (docidsOf q) s)
              refine ⟨?_, ?_, ?_, ?_⟩
              · rw [List.foldl_cons]
                exact h1
              · exact Finset.subset_union_left.trans h2
              · intro b hb
                rcases List.mem_cons.mp hb with hb | hb
                · subst hb
                  exact Finset.sdiff_disjoint
                · exact (h3 b hb).mono_right Finset.subset_union_left
              · refine List.Pairwise.cons ?_ h4
                intro b hb
                exact ((h3 b hb).mono_right Finset.subset_union_right).symm
            · have hi := loopIter_raised r s q hp hpos hd hr
              have hreq := iterRequests_eq r s q hp hpos
              rw [show runLoop (r :: rs) s =
                  ⟨[pendingBatch (docidsOf q) s], s ∪ pendingBatch (docidsOf q) s,
                    .deleteRaised⟩ by simp [runLoop, hi, hreq]]
              refine ⟨rfl, Finset.subset_union_left, ?_, by simp⟩
              intro b hb
              rw [List.mem_singleton.mp hb]
              exact Finset.sdiff_disjoint
        · have h0 : q.matching_results = 0 := Nat.eq_zero_of_not_pos hpos
          have hi := loopIter_finished r s q hp h0
          rw [show runLoop (r :: rs) s = ⟨[], s, .finishedOk⟩ by simp [runLoop, hi]]
          exact ⟨rfl, Finset.Subset.refl s, by simp, by simp⟩

/-! ### Claim theorems: whole runs -/

/-- C5: the batch handed to the dispatcher is disjoint from
`already_deleted` at the start of the iteration, and across a whole
run (starting from the empty set, line 100) the dispatched batches are
pairwise disjoint — no identifier is ever dispatched twice. -/
theorem no_redundant_dispatch :
    (∀ (docids : List DocId) (s : Finset DocId), Disjoint (pendingBatch docids s) s)
    ∧ ∀ rounds : List RoundInput,
        (runLoop rounds ∅).batches.Pairwise (fun a b => Disjoint a b) :=
  ⟨fun _ _ => Finset.sdiff_disjoint, fun rounds => (runLoop_spec rounds ∅).2.2.2⟩

/-- C6: after any run, `already_deleted` equals the left fold of union
over the dispatched batches (so after the n-th dispatch it is
B1 ∪ ... ∪ Bn), whatever the individual delete outcomes were — the
union at line 145 happens before the outcomes are read — and the set
only ever grows. -/
theorem dispatchedSet_is_union_of_batches :
    (∀ rounds : List RoundInput,
        (runLoop rounds ∅).finalAlready = (runLoop rounds ∅).batches.foldl (· ∪ ·) ∅)
    ∧ ∀ (rounds : List RoundInput) (s : Finset DocId),
        s ⊆ (runLoop rounds s).finalAlready :=
  ⟨fun rounds => (runLoop_spec rounds ∅).1, fun rounds s => (runLoop_spec rounds s).2.1⟩

/-! ### Claim theorems: divergences from the spec -/

def qLate : QueryResult := ⟨3, [⟨"a"⟩]⟩

def attemptsLate : Nat → Option QueryResult := fun i => if i = 4 then some qLate else none

def attemptsFourth : Nat → Option QueryResult := fun i => if i = 3 then some qLate else none

/-- C2 (code bug): a query that raises on the first four attempts and
succeeds on the fifth still hits the `how_many_tries == max_tries - 1`
guard, so the script prints "Giving up." and exits instead of diffing;
a success on the fourth attempt does proceed.  The guard conflates
"loop index reached its last value" with "all attempts failed". -/
theorem success_on_fifth_attempt_still_gives_up :
    attemptsLate 4 = some qLate
    ∧ pollRound attemptsLate = none
    ∧ loopIter ⟨attemptsLate, fun _ => .ok "deleted"⟩ ∅ = .exitGaveUp
    ∧ pollRound attemptsFourth = some qLate := by
  decide

def qA : QueryResult := ⟨1, [⟨"a"⟩]⟩

def rDelFail : RoundInput := ⟨fun _ => some qA, fun _ => .error "ApiException: 500"⟩

def rSecond : RoundInput := ⟨fun _ => some ⟨1, [⟨"b"⟩]⟩, fun _ => .ok "deleted"⟩

/-- C4 counterexample: with one pending identifier whose delete
request fails, the run ends with the re-raised exception instead of
proceeding to the second polling round (whose batch is never
dispatched); the identifier was nevertheless added to
`already_deleted`. -/
theorem delete_failure_aborts_run_counterexample :
    (runLoop [rDelFail, rSecond] ∅).status = .deleteRaised
    ∧ (runLoop [rDelFail, rSecond] ∅).batches = [{"a"}]
    ∧ "a" ∈ (runLoop [rDelFail, rSecond] ∅).finalAlready := by
  decide

/-- C4 amended: a failed individual delete is attempted exactly once
and its identifier still enters `already_deleted` (the union at line
145 precedes reading the outcomes), but the failure is not surfaced in
an outcome mapping: the exception re-raises during `for dr in
delete_results`, aborting the run, so no later polling round runs. -/
theorem delete_failure_marks_dispatched_but_aborts (r : RoundInput) (rest : List RoundInput)
    (s : Finset DocId) (q : QueryResult) (d : DocId) (e : String)
    (hp : pollRound r.attempts = some q) (hpos : 0 < q.matching_results)
    (hd : d ∈ pendingBatch (docidsOf q) s) (he : r.outcomes d = .error e) :
    runLoop (r :: rest) s =
      ⟨[pendingBatch (docidsOf q) s], s ∪ pendingBatch (docidsOf q) s, .deleteRaised⟩
    ∧ d ∈ s ∪ pendingBatch (docidsOf q) s
    ∧ (dispatchBlock r.outcomes s (pendingBatch (docidsOf q) s)).attempts.count d = 1 := by
  have hne : pendingBatch (docidsOf q) s ≠ ∅ := Finset.nonempty_iff_ne_empty.mp ⟨d, hd⟩
  have hdr : d ∈ (dispatchBlock r.outcomes s (pendingBatch (docidsOf q) s)).raised := by
    refine Finset.mem_filter.mpr ⟨hd, ?_⟩
    rw [he]
    rfl
  have hr : (dispatchBlock r.outcomes s (pendingBatch (docidsOf q) s)).raised ≠ ∅ :=
    Finset.nonempty_iff_ne_empty.mp ⟨d, hdr⟩
  have hi := loopIter_raised r s q hp hpos hne hr
  have hreq := iterRequests_eq r s q hp hpos
  refine ⟨by simp [runLoop, hi, hreq], Finset.mem_union_right _ hd, ?_⟩
  exact Multiset.count_eq_one_of_mem (pendingBatch (docidsOf q) s).nodup hd

/-- Witness for the amended C4 at a one-identifier batch whose delete
fails. -/
theorem delete_failure_marks_dispatched_but_aborts_witness :
    runLoop [rDelFail] ∅ =
      ⟨[pendingBatch (docidsOf qA) ∅], ∅ ∪ pendingBatch (docidsOf qA) ∅, .deleteRaised⟩
    ∧ "a" ∈ ∅ ∪ pendingBatch (docidsOf qA) ∅
    ∧ (dispatchBlock rDelFail.outcomes ∅ (pendingBatch (docidsOf qA) ∅)).attempts.count "a"
        = 1 :=
  delete_failure_marks_dispatched_but_aborts rDelFail [] ∅ qA "a" "ApiException: 500"
    rfl (by decide) (by decide) rfl

def argvMissing : List String := ["delete_all_documents.py", "proj", "coll"]

def envMissingUrl : Env := ⟨none, some "token"⟩

/-- C8 counterexample: with `WD_URL` unset the script prints the
diagnostic and exits, but `sys.exit()` carries no argument, so the
exit status is 0 — not a non-zero-equivalent status. -/
theorem missing_env_exits_with_status_zero_counterexample :
    script argvMissing envMissingUrl [] =
      .error ⟨"WD_URL is not set. Set it to the Watson Discovery instance API URL.", 0⟩
    ∧ ¬ ∃ ex : StartupExit,
        script argvMissing envMissingUrl [] = .error ex ∧ 0 < ex.exitCode := by
  refine ⟨rfl, ?_⟩
  rintro ⟨ex, he, hpos⟩
  rw [show script argvMissing envMissingUrl [] =
      .error ⟨"WD_URL is not set. Set it to the Watson Discovery instance API URL.", 0⟩
    from rfl] at he
  injection he with h2
  subst h2
  exact Nat.lt_irrefl 0 hpos

/-- C8 amended: if either environment variable is missing (and the
usage check passed), the script exits with the corresponding
diagnostic before the main loop — hence before any remote query or
delete request — but with exit status 0, not a non-zero status. -/
theorem missing_env_exits_before_any_request (argv : List String) (env : Env)
    (rounds : List RoundInput) (hlen : 3 ≤ argv.length)
    (henv : env.wd_url = none ∨ env.wd_token = none) :
    ∃ ex : StartupExit, script argv env rounds = .error ex ∧ ex.exitCode = 0
      ∧ (ex.message = "WD_URL is not set. Set it to the Watson Discovery instance API URL."
        ∨ ex.message
            = "WD_TOKEN is not set. Set it to the Watson Discovery instance API TOKEN.") := by
  have hnl : ¬ argv.length < 3 := not_lt.mpr hlen
  rcases henv with h | h
  · exact ⟨⟨_, 0⟩, by simp [script, startup, hnl, h], rfl, .inl rfl⟩
  · cases hu : env.wd_url with
    | none => exact ⟨⟨_, 0⟩, by simp [script, startup, hnl, hu], rfl, .inl rfl⟩
    | some u => exact ⟨⟨_, 0⟩, by simp [script, startup, hnl, hu, h], rfl, .inr rfl⟩

/-- Witness for the amended C8 with both environment variables
missing. -/
theorem missing_env_exits_before_any_request_witness :
    ∃ ex : StartupExit, script argvMissing ⟨none, none⟩ [] = .error ex ∧ ex.exitCode = 0
      ∧ (ex.message = "WD_URL is not set. Set it to the Watson Discovery instance API URL."
        ∨ ex.message
            = "WD_TOKEN is not set. Set it to the Watson Discovery instance API TOKEN.") :=
  missing_env_exits_before_any_request argvMissing ⟨none, none⟩ [] (by decide) (.inl rfl)

/-- C9: within one dispatcher call on a non-empty batch, every
identifier of the batch is submitted exactly once (count 1) and no
identifier outside it is submitted (count 0); the worker pool is
created with `max_workers = max_threads = 16`. -/
theorem one_delete_attempt_per_identifier (outcomes : DocId → DeleteOutcome)
    (already batch : Finset DocId) (d : DocId) (_hne : batch ≠ ∅) :
    (dispatchBlock outcomes already batch).attempts.count d = (if d ∈ batch then 1 else 0)
    ∧ max_threads = 16 := by
  refine ⟨?_, rfl⟩
  by_cases hd : d ∈ batch
  · rw [if_pos hd]
    exact Multiset.count_eq_one_of_mem batch.nodup hd
  · rw [if_neg hd]
    exact Multiset.count_eq_zero_of_not_mem hd

/-- Witness for C9 on the singleton batch containing "a". -/
theorem one_delete_attempt_per_identifier_witness :
    (dispatchBlock (fun _ => .ok "deleted") ∅ {"a"}).attempts.count "a"
        = (if "a" ∈ ({"a"} : Finset DocId) then 1 else 0)
    ∧ max_threads = 16 :=
  one_delete_attempt_per_identifier (fun _ => .ok "deleted") ∅ {"a"} "a" (by decide)

end DeleteAllDocuments
